import Mathlib

/-!
Verification of the face-blur utilities in `utils/face_blur.py`
(image-video-face-blur repository).

The Python functions are shallowly embedded: images become a structure of
integer dimensions plus a pixel map, the MediaPipe detector and the OpenCV
Gaussian blur are oracle parameters, and the I/O layer of the two pipelines
is driven by an explicit environment record describing how each external
call behaves.  Machine floats from the detector are modelled as rationals.
-/

namespace FaceBlur

/-- Python truncation `int(q)`: toward zero. -/
def pyInt (q : ℚ) : ℤ := if 0 ≤ q then ⌊q⌋ else ⌈q⌉

/-- A relative bounding box from `detection.location_data.relative_bounding_box`:
fractions of the frame dimensions. -/
structure BBoxRel where
  xmin : ℚ
  ymin : ℚ
  width : ℚ
  height : ℚ

/-- An absolute pixel rectangle `(x, y, width, height)`. -/
structure Region where
  x : ℤ
  y : ℤ
  w : ℤ
  h : ℤ
deriving DecidableEq, Repr

/-- The clamp-and-pad step of `detect_and_blur_faces` (face_blur.py lines
80-92): multiply the relative coordinates by the frame dimensions and
truncate to int, expand by `padding` on every side, floor the origin at 0
and cap width/height at the remaining frame extent. -/
def clampPad (bbox : BBoxRel) (W H padding : ℤ) : Region :=
  let x0 := pyInt (bbox.xmin * W)
  let y0 := pyInt (bbox.ymin * H)
  let w0 := pyInt (bbox.width * W)
  let h0 := pyInt (bbox.height * H)
  let x := max 0 (x0 - padding)
  let y := max 0 (y0 - padding)
  let width := min (w0 + 2 * padding) (W - x)
  let height := min (h0 + 2 * padding) (H - y)
  ⟨x, y, width, height⟩

/-- A frame: `image.shape = (height, width, _)` with an abstract scalar per
pixel (the three 8-bit channels are bundled into one abstract value). -/
structure Image where
  height : ℤ
  width : ℤ
  pix : ℤ → ℤ → ℤ

/-- The bounds-clamping prologue of `blur_face_region` (face_blur.py lines
31-34): `x = max(0, x)`, `y = max(0, y)`, `w = min(w, shape[1] - x)`,
`h = min(h, shape[0] - y)`. -/
def clampRect (image : Image) (bbox : ℤ × ℤ × ℤ × ℤ) : Region :=
  ⟨max 0 bbox.1, max 0 bbox.2.1,
   min bbox.2.2.1 (image.width - max 0 bbox.1),
   min bbox.2.2.2 (image.height - max 0 bbox.2.1)⟩

/-- `blur_face_region(image, bbox)` (face_blur.py lines 16-48): clamp the
box to the image bounds, return the image unchanged when the clamped box is
degenerate, otherwise extract the face region, apply the (oracle) Gaussian
blur `gauss`, and write the blurred buffer back over the same rectangle. -/
def blur_face_region (gauss : Image → Image) (image : Image)
    (bbox : ℤ × ℤ × ℤ × ℤ) : Image :=
  let r := clampRect image bbox
  if r.w ≤ 0 ∨ r.h ≤ 0 then image
  else
    let face_region : Image := ⟨r.h, r.w, fun i j => image.pix (r.y + i) (r.x + j)⟩
    let blurred_face := gauss face_region
    ⟨image.height, image.width, fun i j =>
      if r.y ≤ i ∧ i < r.y + r.h ∧ r.x ≤ j ∧ j < r.x + r.w then
        blurred_face.pix (i - r.y) (j - r.x)
      else image.pix i j⟩

/-- `detect_and_blur_faces(image)` (face_blur.py lines 50-98): the detector
is an oracle that already produced the list `detections`; for each detection
in the detector's native order, clamp-and-pad with padding 20 and blur the
region, incrementing the face counter once per detection. -/
def detect_and_blur_faces (gauss : Image → Image) (detections : List BBoxRel)
    (image : Image) : Image × ℕ :=
  detections.foldl
    (fun acc bbox =>
      let r := clampPad bbox acc.1.width acc.1.height 20
      (blur_face_region gauss acc.1 (r.x, r.y, r.w, r.h), acc.2 + 1))
    (image, 0)

/-- One iteration of the detection loop of `detect_and_blur_faces`: clamp
and pad the detection's relative box (padding 20) and blur that region. -/
def applyDetection (gauss : Image → Image) (im : Image) (bbox : BBoxRel) : Image :=
  let r := clampPad bbox im.width im.height 20
  blur_face_region gauss im (r.x, r.y, r.w, r.h)

/-- Observable I/O events of a pipeline run.  `openCap`/`openOut` are
emitted only when the corresponding stream actually opens
(`isOpened()` true); `releaseCap`/`releaseOut` record a `release()` call on
an opened stream; `readFrame`/`writeFrame` record decode/encode attempts;
`removeInput` records the best-effort `os.remove` of the input file. -/
inductive Ev
  | openCap | releaseCap | openOut | releaseOut | readFrame | writeFrame | removeInput
deriving DecidableEq, Repr

/-- One decodable frame of the input video, as the environment presents it
to the loop: how many detections the detector reports on it, and whether the
loop body (detector or encoder call) raises a fault on it. -/
structure FrameSpec where
  faces : ℕ
  fault : Option String
deriving DecidableEq, Repr

/-- How the external world behaves on one call of `blur_faces_in_video`:
whether the input path exists, whether the capture and the writer open,
the stream properties `cv2` reports, the decodable frames in order, and
whether `os.remove` succeeds. -/
structure VideoEnv where
  inputExists : Bool
  capOpens : Bool
  fps : ℤ
  frameWidth : ℤ
  frameHeight : ℤ
  totalFrames : ℤ
  outOpens : Bool
  frames : List FrameSpec
  removeOk : Bool

/-- The `while True` frame loop of `blur_faces_in_video` (face_blur.py lines
179-197), carrying `frame_count` and `total_faces_detected`.  Each iteration
reads a frame (the read past the last frame returns `ret = False` and breaks),
processes it (a detector/encoder fault raises), writes it, increments the
frame counter, and every 30 frames computes
`progress = (frame_count / total_frames) * 100`, which raises
`ZeroDivisionError` (`str(e) = "division by zero"`) when the container
reported `total_frames = 0`.  Returns the loop outcome and the event trace. -/
def videoLoop (total_frames : ℤ) :
    List FrameSpec → ℕ → ℕ → Except String (ℕ × ℕ) × List Ev
  | [], frame_count, total_faces =>
      (.ok (frame_count, total_faces), [Ev.readFrame])
  | f :: rest, frame_count, total_faces =>
      match f.fault with
      | some msg => (.error msg, [Ev.readFrame])
      | none =>
          let total_faces := total_faces + f.faces
          let frame_count := frame_count + 1
          if frame_count % 30 = 0 ∧ total_frames = 0 then
            (.error "division by zero", [Ev.readFrame, Ev.writeFrame])
          else
            let rec_result := videoLoop total_frames rest frame_count total_faces
            (rec_result.1, Ev.readFrame :: Ev.writeFrame :: rec_result.2)

/-- The `except` handler of `blur_faces_in_video` (lines 212-220): release
whichever streams are open (`release()` on a stream that never opened is a
no-op and emits no event). -/
def errReleases (tr : List Ev) : List Ev :=
  (if Ev.openCap ∈ tr then [Ev.releaseCap] else []) ++
  (if Ev.openOut ∈ tr then [Ev.releaseOut] else [])

/-- The `try` body of `blur_faces_in_video` (lines 148-210): existence
check, open capture, read properties, open writer (releasing the capture and
aborting if the writer does not open), run the frame loop, release both
streams, best-effort delete of the input, and build the success message.
`.error` is a fault that reaches the `except` handler. -/
def videoBody (env : VideoEnv) : Except String (Bool × String) × List Ev :=
  if env.inputExists = false then
    (.ok (false, "Input file not found"), [])
  else if env.capOpens = false then
    (.ok (false, "Could not open video file. Please check the file format."), [])
  else if env.outOpens = false then
    (.ok (false, "Could not create output video file"), [Ev.openCap, Ev.releaseCap])
  else
    match videoLoop env.totalFrames env.frames 0 0 with
    | (.error msg, tr) => (.error msg, Ev.openCap :: Ev.openOut :: tr)
    | (.ok (frame_count, total_faces), tr) =>
        (.ok (true, "Successfully processed video. " ++ toString total_faces ++
            " face instances detected and blurred across " ++
            toString frame_count ++ " frames."),
         Ev.openCap :: Ev.openOut ::
           (tr ++ [Ev.releaseCap, Ev.releaseOut, Ev.removeInput]))

/-- `blur_faces_in_video(input_path, output_path)` (face_blur.py lines
137-222): the `try` body, with every fault converted by the `except` handler
into `(False, "Error processing video: " + str(e))` after releasing the
streams that are open. -/
def blur_faces_in_video (env : VideoEnv) : (Bool × String) × List Ev :=
  match videoBody env with
  | (.ok p, tr) => (p, tr)
  | (.error e, tr) =>
      ((false, "Error processing video: " ++ e), tr ++ errReleases tr)

/-- How the external world behaves on one call of `blur_faces_in_image`:
whether the input path exists, whether `cv2.imread` decodes it (and to what
image), what the detector returns, whether the detector faults, and whether
`cv2.imwrite` succeeds. -/
structure ImageEnv where
  inputExists : Bool
  readOk : Bool
  image : Image
  gauss : Image → Image
  detections : List BBoxRel
  detectFault : Option String
  writeOk : Bool

/-- The `try` body of `blur_faces_in_image` (face_blur.py lines 111-132):
existence check, decode, detect-and-blur (a detector fault raises), persist,
and build the success message from the face count. -/
def imageBody (env : ImageEnv) : Except String (Bool × String) × List Ev :=
  if env.inputExists = false then
    (.ok (false, "Input file not found"), [])
  else if env.readOk = false then
    (.ok (false, "Could not read image file. Please check the file format."),
     [Ev.readFrame])
  else
    match env.detectFault with
    | some e => (.error e, [Ev.readFrame])
    | none =>
        let result := detect_and_blur_faces env.gauss env.detections env.image
        if env.writeOk = false then
          (.ok (false, "Failed to save processed image"),
           [Ev.readFrame, Ev.writeFrame])
        else
          (.ok (true, "Successfully processed image. " ++ toString result.2 ++
              " face(s) detected and blurred."),
           [Ev.readFrame, Ev.writeFrame])

/-- `blur_faces_in_image(input_path, output_path)` (face_blur.py lines
100-135): the `try` body, with every fault converted by the `except` handler
into `(False, "Error processing image: " + str(e))`. -/
def blur_faces_in_image (env : ImageEnv) : (Bool × String) × List Ev :=
  match imageBody env with
  | (.ok p, tr) => (p, tr)
  | (.error e, tr) => ((false, "Error processing image: " ++ e), tr)

end FaceBlur

namespace FaceBlur

/-- The detection fold tracks the image fold and counts one per detection. -/
theorem detect_fold_split (gauss : Image → Image) (ds : List BBoxRel) :
    ∀ (img : Image) (n : ℕ),
      ds.foldl
        (fun acc bbox =>
          let r := clampPad bbox acc.1.width acc.1.height 20
          (blur_face_region gauss acc.1 (r.x, r.y, r.w, r.h), acc.2 + 1))
        (img, n) =
      (ds.foldl (applyDetection gauss) img, n + ds.length) := by
  induction ds with
  | nil => intro img n; simp
  | cons b bs ih =>
      intro img n
      simp only [List.foldl_cons, List.length_cons]
      rw [show
        (let r := clampPad b img.width img.height 20
         (blur_face_region gauss img (r.x, r.y, r.w, r.h), n + 1)) =
        (applyDetection gauss img b, n + 1) from rfl]
      rw [ih]
      exact congrArg _ (by omega)

/-- C1: with the frame dimensions positive and every relative coordinate in
[0,1], the clamp-and-pad step produces a region with `0 ≤ x`, `0 ≤ y`,
`x + width ≤ W` and `y + height ≤ H`, for every integer padding. -/
theorem clampPad_in_bounds (bbox : BBoxRel) (W H padding : ℤ)
    (hW : 0 < W) (hH : 0 < H)
    (hx0 : 0 ≤ bbox.xmin) (hx1 : bbox.xmin ≤ 1)
    (hy0 : 0 ≤ bbox.ymin) (hy1 : bbox.ymin ≤ 1)
    (hw0 : 0 ≤ bbox.width) (hw1 : bbox.width ≤ 1)
    (hh0 : 0 ≤ bbox.height) (hh1 : bbox.height ≤ 1) :
    0 ≤ (clampPad bbox W H padding).x ∧ 0 ≤ (clampPad bbox W H padding).y ∧
    (clampPad bbox W H padding).x + (clampPad bbox W H padding).w ≤ W ∧
    (clampPad bbox W H padding).y + (clampPad bbox W H padding).h ≤ H := by
  simp only [clampPad]
  omega

/-- Witness for C1 at a concrete box, frame and padding. -/
theorem clampPad_in_bounds_witness :
    0 ≤ (clampPad ⟨1/2, 1/3, 1/4, 1/4⟩ 100 80 20).x ∧
    0 ≤ (clampPad ⟨1/2, 1/3, 1/4, 1/4⟩ 100 80 20).y ∧
    (clampPad ⟨1/2, 1/3, 1/4, 1/4⟩ 100 80 20).x +
      (clampPad ⟨1/2, 1/3, 1/4, 1/4⟩ 100 80 20).w ≤ 100 ∧
    (clampPad ⟨1/2, 1/3, 1/4, 1/4⟩ 100 80 20).y +
      (clampPad ⟨1/2, 1/3, 1/4, 1/4⟩ 100 80 20).h ≤ 80 :=
  clampPad_in_bounds ⟨1/2, 1/3, 1/4, 1/4⟩ 100 80 20
    (by norm_num) (by norm_num) (by norm_num) (by norm_num)
    (by norm_num) (by norm_num) (by norm_num) (by norm_num)
    (by norm_num) (by norm_num)

/-- C7: when one side of the clamped rectangle is zero or negative,
`blur_face_region` is a no-op: it returns the frame with every pixel (and
the dimensions) unchanged, not an error. -/
theorem blur_face_region_degenerate (gauss : Image → Image) (image : Image)
    (bbox : ℤ × ℤ × ℤ × ℤ)
    (hdeg : (clampRect image bbox).w ≤ 0 ∨ (clampRect image bbox).h ≤ 0) :
    blur_face_region gauss image bbox = image := by
  simp only [blur_face_region]
  exact if_pos hdeg

/-- Witness for C7: a box of width 0 on a 4x4 frame. -/
theorem blur_face_region_degenerate_witness :
    ((clampRect ⟨4, 4, fun _ _ => 7⟩ (1, 1, 0, 2)).w ≤ 0 ∨
      (clampRect ⟨4, 4, fun _ _ => 7⟩ (1, 1, 0, 2)).h ≤ 0) ∧
    blur_face_region (fun im => im) ⟨4, 4, fun _ _ => 7⟩ (1, 1, 0, 2) =
      ⟨4, 4, fun _ _ => 7⟩ :=
  ⟨Or.inl (by decide),
   blur_face_region_degenerate (fun im => im) ⟨4, 4, fun _ _ => 7⟩ (1, 1, 0, 2)
     (Or.inl (by decide))⟩

/-- C10: `blur_face_region` first clamps the box to the frame (origin at
least 0, extent capped at the frame edge); it writes only pixels strictly
inside the clamped rectangle (dimensions and all other pixels unchanged),
and whenever it does mutate, the clamped rectangle lies fully inside the
frame, so no read or write falls outside the frame. -/
theorem blur_face_region_writes_in_bounds (gauss : Image → Image)
    (image : Image) (bbox : ℤ × ℤ × ℤ × ℤ) :
    (blur_face_region gauss image bbox).height = image.height ∧
    (blur_face_region gauss image bbox).width = image.width ∧
    (∀ i j : ℤ,
      (i < (clampRect image bbox).y ∨
       (clampRect image bbox).y + (clampRect image bbox).h ≤ i ∨
       j < (clampRect image bbox).x ∨
       (clampRect image bbox).x + (clampRect image bbox).w ≤ j) →
      (blur_face_region gauss image bbox).pix i j = image.pix i j) ∧
    (0 < (clampRect image bbox).w → 0 < (clampRect image bbox).h →
      0 ≤ (clampRect image bbox).x ∧
      (clampRect image bbox).x + (clampRect image bbox).w ≤ image.width ∧
      0 ≤ (clampRect image bbox).y ∧
      (clampRect image bbox).y + (clampRect image bbox).h ≤ image.height) := by
  refine ⟨?_, ?_, ?_, ?_⟩
  · by_cases hdeg : (clampRect image bbox).w ≤ 0 ∨ (clampRect image bbox).h ≤ 0
    · rw [blur_face_region_degenerate gauss image bbox hdeg]
    · simp only [blur_face_region, if_neg hdeg]
  · by_cases hdeg : (clampRect image bbox).w ≤ 0 ∨ (clampRect image bbox).h ≤ 0
    · rw [blur_face_region_degenerate gauss image bbox hdeg]
    · simp only [blur_face_region, if_neg hdeg]
  · intro i j hout
    by_cases hdeg : (clampRect image bbox).w ≤ 0 ∨ (clampRect image bbox).h ≤ 0
    · rw [blur_face_region_degenerate gauss image bbox hdeg]
    · simp only [blur_face_region, if_neg hdeg]
      rw [if_neg]
      omega
  · intro hw hh
    simp only [clampRect] at hw hh ⊢
    omega

/-- Witness for C10: on a 4x4 frame with a box reaching past the right
edge, a pixel left of the clamped rectangle is untouched and the clamped
rectangle is inside the frame. -/
theorem blur_face_region_writes_in_bounds_witness :
    (blur_face_region (fun im => ⟨im.height, im.width, fun _ _ => 0⟩)
        ⟨4, 4, fun _ _ => 7⟩ (2, 1, 5, 2)).pix 1 0 =
      (⟨4, 4, fun _ _ => 7⟩ : Image).pix 1 0 ∧
    0 ≤ (clampRect ⟨4, 4, fun _ _ => 7⟩ (2, 1, 5, 2)).x ∧
    (clampRect ⟨4, 4, fun _ _ => 7⟩ (2, 1, 5, 2)).x +
      (clampRect ⟨4, 4, fun _ _ => 7⟩ (2, 1, 5, 2)).w ≤ 4 ∧
    0 ≤ (clampRect ⟨4, 4, fun _ _ => 7⟩ (2, 1, 5, 2)).y ∧
    (clampRect ⟨4, 4, fun _ _ => 7⟩ (2, 1, 5, 2)).y +
      (clampRect ⟨4, 4, fun _ _ => 7⟩ (2, 1, 5, 2)).h ≤ 4 :=
  ⟨(blur_face_region_writes_in_bounds _ _ _).2.2.1 1 0 (by
      refine Or.inr (Or.inr (Or.inl ?_)); decide),
   (blur_face_region_writes_in_bounds
      (fun im => ⟨im.height, im.width, fun _ _ => 0⟩)
      ⟨4, 4, fun _ _ => 7⟩ (2, 1, 5, 2)).2.2.2 (by decide) (by decide)⟩

/-- C6: on a frame where the detector returns K detections,
`detect_and_blur_faces` returns a face count of exactly K, and the frame is
the result of one blur pass per detection, applied in the detector's native
order with no deduplication or re-sorting. -/
theorem detect_and_blur_faces_count (gauss : Image → Image)
    (detections : List BBoxRel) (image : Image) :
    (detect_and_blur_faces gauss detections image).2 = detections.length ∧
    (detect_and_blur_faces gauss detections image).1 =
      detections.foldl (applyDetection gauss) image := by
  simp only [detect_and_blur_faces]
  rw [detect_fold_split]
  exact ⟨by omega, rfl⟩

/-- C8: on a frame where the detector returns zero detections,
`detect_and_blur_faces` returns the original frame unmodified together
with a face count of 0. -/
theorem detect_and_blur_faces_no_detections (gauss : Image → Image)
    (image : Image) :
    detect_and_blur_faces gauss [] image = (image, 0) := rfl

/-- When the frame loop finishes at end-of-stream, the final frame counter
is the initial one plus the number of decoded frames, and the final face
total is the initial one plus the sum of the per-frame face counts. -/
theorem videoLoop_ok_counts (total_frames : ℤ) (fs : List FrameSpec) :
    ∀ fc tf fc' tf' : ℕ,
      (videoLoop total_frames fs fc tf).1 = Except.ok (fc', tf') →
      fc' = fc + fs.length ∧ tf' = tf + (fs.map FrameSpec.faces).sum := by
  induction fs with
  | nil =>
      intro fc tf fc' tf' h
      simp [videoLoop] at h
      simp [h.1, h.2]
  | cons f rest ih =>
      intro fc tf fc' tf' h
      simp only [videoLoop] at h
      cases hf : f.fault with
      | some msg => rw [hf] at h; simp at h
      | none =>
          rw [hf] at h
          by_cases hc : (fc + 1) % 30 = 0 ∧ total_frames = 0
          · rw [if_pos hc] at h; simp at h
          · rw [if_neg hc] at h
            have := ih (fc + 1) (tf + f.faces) fc' tf' h
            simp only [List.length_cons, List.map_cons, List.sum_cons]
            omega

/-- C2: on every run of `blur_faces_in_video` — normal completion, failure
to create the encoder, or a fault anywhere in the frame loop — every decode
stream and encode stream that was opened is released before the function
returns. -/
theorem video_streams_released (env : VideoEnv) :
    (Ev.openCap ∈ (blur_faces_in_video env).2 →
      Ev.releaseCap ∈ (blur_faces_in_video env).2) ∧
    (Ev.openOut ∈ (blur_faces_in_video env).2 →
      Ev.releaseOut ∈ (blur_faces_in_video env).2) := by
  by_cases h1 : env.inputExists = false
  · simp [blur_faces_in_video, videoBody, h1]
  · by_cases h2 : env.capOpens = false
    · simp [blur_faces_in_video, videoBody, h1, h2]
    · by_cases h3 : env.outOpens = false
      · simp [blur_faces_in_video, videoBody, h1, h2, h3]
      · rcases hE : videoLoop env.totalFrames env.frames 0 0 with ⟨r, tr⟩
        cases r with
        | error e =>
            simp [blur_faces_in_video, videoBody, h1, h2, h3, hE, errReleases]
        | ok p =>
            obtain ⟨fc, tf⟩ := p
            simp [blur_faces_in_video, videoBody, h1, h2, h3, hE]

/-- C4: for every behaviour of the environment, both pipeline entry points
return a `(success, message)` pair in which any fault of the body has been
converted into `(false, "Error processing ...: " + cause)`, and a body that
finishes normally has its pair passed through — no fault escapes the
boundary. -/
theorem pipelines_no_fault_escapes (envI : ImageEnv) (envV : VideoEnv) :
    (∀ e, (imageBody envI).1 = Except.error e →
      (blur_faces_in_image envI).1 = (false, "Error processing image: " ++ e)) ∧
    (∀ p, (imageBody envI).1 = Except.ok p →
      (blur_faces_in_image envI).1 = p) ∧
    (∀ e, (videoBody envV).1 = Except.error e →
      (blur_faces_in_video envV).1 = (false, "Error processing video: " ++ e)) ∧
    (∀ p, (videoBody envV).1 = Except.ok p →
      (blur_faces_in_video envV).1 = p) := by
  rcases hI : imageBody envI with ⟨rI, trI⟩
  rcases hV : videoBody envV with ⟨rV, trV⟩
  refine ⟨?_, ?_, ?_, ?_⟩
  · intro e he
    simp at he
    simp [blur_faces_in_image, hI, he]
  · intro p hp
    simp at hp
    simp [blur_faces_in_image, hI, hp]
  · intro e he
    simp at he
    simp [blur_faces_in_video, hV, he]
  · intro p hp
    simp at hp
    simp [blur_faces_in_video, hV, hp]

/-- C5: when the input exists, both streams open, and the frame loop reads
to end-of-stream without a fault, `blur_faces_in_video` returns success with
the exact message built from the number of frames actually decoded and the
sum of the per-frame face counts. -/
theorem video_success_counts (env : VideoEnv) (fc tf : ℕ)
    (h1 : env.inputExists = true) (h2 : env.capOpens = true)
    (h3 : env.outOpens = true)
    (hloop : (videoLoop env.totalFrames env.frames 0 0).1 = Except.ok (fc, tf)) :
    (blur_faces_in_video env).1 =
      (true, "Successfully processed video. " ++
        toString ((env.frames.map FrameSpec.faces).sum) ++
        " face instances detected and blurred across " ++
        toString env.frames.length ++ " frames.") := by
  obtain ⟨hfc, htf⟩ :=
    videoLoop_ok_counts env.totalFrames env.frames 0 0 fc tf hloop
  rcases hE : videoLoop env.totalFrames env.frames 0 0 with ⟨r, tr⟩
  rw [hE] at hloop
  simp at hloop
  subst hloop
  simp only [Nat.zero_add] at hfc htf
  simp [blur_faces_in_video, videoBody, h1, h2, h3, hE, hfc, htf]

/-- Witness for C5: a two-frame video with 1 and 2 detections. -/
theorem video_success_counts_witness :
    (blur_faces_in_video
        ⟨true, true, 30, 640, 480, 5, true, [⟨1, none⟩, ⟨2, none⟩], true⟩).1 =
      (true, "Successfully processed video. 3 face instances detected and blurred across 2 frames.") :=
  video_success_counts
    ⟨true, true, 30, 640, 480, 5, true, [⟨1, none⟩, ⟨2, none⟩], true⟩
    2 3 rfl rfl rfl rfl

/-- C9: when the input path does not exist, both pipelines return
`(false, "Input file not found")` with an empty event trace: no decode is
attempted and no output is produced. -/
theorem input_not_found_early (envI : ImageEnv) (envV : VideoEnv) :
    (envI.inputExists = false →
      blur_faces_in_image envI = ((false, "Input file not found"), [])) ∧
    (envV.inputExists = false →
      blur_faces_in_video envV = ((false, "Input file not found"), [])) := by
  constructor <;> intro h <;>
    simp [blur_faces_in_image, blur_faces_in_video, imageBody, videoBody, h]

/-- C3 (code bug): when the container reports a total frame count of 0 and
the video has 30 decodable frames with no detector fault, the progress
report at frame 30 divides by the reported total, raising
`ZeroDivisionError`; the pipeline returns `(false, "Error processing video:
division by zero")` instead of completing. -/
theorem video_divzero_on_zero_total :
    (blur_faces_in_video
        ⟨true, true, 30, 640, 480, 0, true, List.replicate 30 ⟨0, none⟩, true⟩).1 =
      (false, "Error processing video: division by zero") := by
  rfl

end FaceBlur
